import Mathlib

/-!
Verification development for the kolo storage core (TypeScript monorepo).

Shallow embedding of the two core subsystems:

* the Adapter Registry & Fallback Resolver
  (`StorageManager`, packages/core/src/core/storage-manager.ts), and
* the Instrumented Operation Envelope together with the Notification Bus
  (`BaseStorageAdapter`, packages/core/src/core/base-storage-adapter.ts, and
  `StorageEventEmitter`, packages/core/src/events/event-emitter.ts).

Conventions of the embedding:

* JavaScript `Map` objects (which preserve insertion order, and on `set` of an
  existing key keep the original position) are modelled as association lists;
* adapter instances are opaque values carrying an identity and the result of
  their synchronous, I/O-free `isReady()` check;
* configuration blobs, error objects and operation payloads are opaque and
  modelled as `Nat` identifiers;
* the `uuid` library's `v4` generator is modelled as an injective fresh-name
  supply indexed by a counter that is threaded through operation invocations;
* promises are modelled by `Except`: a fulfilled promise is `.ok`, a rejected
  promise is `.error`.
-/

/-- Lookup in a JS `Map` modelled as an association list (`Map.get`). -/
def mapGet {α : Type} (m : List (String × α)) (k : String) : Option α :=
  (m.find? (fun p => p.1 == k)).map (·.2)

/-- Insertion into a JS `Map` (`Map.set`): replaces in place when the key is
present (JS Maps keep the original insertion position), appends otherwise. -/
def mapSet {α : Type} (m : List (String × α)) (k : String) (v : α) : List (String × α) :=
  if m.any (fun p => p.1 == k) then
    m.map (fun p => if p.1 == k then (k, v) else p)
  else m ++ [(k, v)]

/-- Removal from a JS `Map` (`Map.delete`). -/
def mapDelete {α : Type} (m : List (String × α)) (k : String) : List (String × α) :=
  m.filter (fun p => p.1 != k)

/-- JavaScript `String.prototype.toLowerCase()` on adapter names, modelled as
a character-wise lowercase map (extensionally the same as `String.toLower`;
written over the character list so that it evaluates by kernel reduction). -/
def jsToLower (s : String) : String :=
  String.mk (s.data.map Char.toLower)

/-- A concrete backend adapter instance (an `IStorageAdapter`).  Only its
identity and the result of its synchronous `isReady()` check matter to the
registry; both are stored here. -/
structure Adapter where
  id : Nat
  ready : Bool
deriving DecidableEq, Repr

/-- One entry of `StorageManagerConfig.adapters`
(interfaces/storage-factory-config.interface.ts, `AdapterConfig`):
name, opaque config blob, optional enabled flag, optional priority. -/
structure AdapterConfig where
  name : String
  config : Nat
  enabled : Option Bool
  priority : Option Int
deriving DecidableEq, Repr

/-- `StorageManagerConfig` from interfaces/storage-factory-config.interface.ts. -/
structure StorageManagerConfig where
  adapters : List AdapterConfig
  defaultAdapter : Option String
  enableFallback : Option Bool

/-- `AdapterFactory`: receives the opaque config blob and either returns an
adapter or throws (modelled by `Except`, since `registerFactory` wraps the
invocation in try/catch). -/
def AdapterFactory : Type := Nat → Except Nat Adapter

/-- The configuration errors thrown by the registry
(`StorageConfigurationException`), distinguished by condition as the spec
requires: adapter not registered vs. adapter not ready. -/
inductive StorageError where
  | notRegistered (adapterName : String)
  | notReady (adapterName : String)
deriving DecidableEq, Repr

/-- State of `StorageManager` (storage-manager.ts lines 13-18): three maps
keyed by name, the optional default adapter name, and the fallback flag. -/
structure StorageManager where
  adapters : List (String × Adapter)
  factories : List (String × AdapterFactory)
  adapterConfigs : List (String × AdapterConfig)
  defaultAdapter : Option String
  enableFallback : Bool

/-- The `StorageManager` constructor (storage-manager.ts lines 20-30).  Note
that configs are stored under the verbatim `adapterConfig.name`, with no
`toLowerCase()` — unlike every later read of `adapterConfigs`. -/
def StorageManager.create (config : Option StorageManagerConfig) : StorageManager :=
  match config with
  | none =>
      { adapters := [], factories := [], adapterConfigs := [],
        defaultAdapter := none, enableFallback := false }
  | some c =>
      { adapters := [], factories := [],
        adapterConfigs := c.adapters.foldl (fun acc ac => mapSet acc ac.name ac) [],
        defaultAdapter := c.defaultAdapter,
        enableFallback := c.enableFallback.getD false }

/-- `registerFactory` (storage-manager.ts lines 37-52): stores the factory
under the lowercased name; if a config is found under the lowercased name and
is not explicitly disabled (`config.enabled !== false`), invokes the factory
and caches the instance; a throwing factory is logged and ignored. -/
def StorageManager.registerFactory (m : StorageManager) (name : String)
    (factory : AdapterFactory) : StorageManager :=
  let m1 := { m with factories := mapSet m.factories (jsToLower name) factory }
  match mapGet m1.adapterConfigs (jsToLower name) with
  | some config =>
      if config.enabled != some false then
        match factory config.config with
        | .ok adapter => { m1 with adapters := mapSet m1.adapters (jsToLower name) adapter }
        | .error _ => m1
      else m1
  | none => m1

/-- `registerAdapter` (storage-manager.ts lines 59-62): stores a ready-made
instance under the lowercased name. -/
def StorageManager.registerAdapter (m : StorageManager) (name : String)
    (adapter : Adapter) : StorageManager :=
  { m with adapters := mapSet m.adapters (jsToLower name) adapter }

/-- `getAdapter` (storage-manager.ts lines 69-92): lowercased lookup; throws
`notRegistered` when absent, `notReady` when the instance's readiness check
fails, otherwise returns the stored instance itself. -/
def StorageManager.getAdapter (m : StorageManager) (name : String) :
    Except StorageError Adapter :=
  match mapGet m.adapters (jsToLower name) with
  | none => .error (.notRegistered name)
  | some adapter =>
      if adapter.ready then .ok adapter
      else .error (.notReady name)

/-- Priority consulted by the fallback scan (storage-manager.ts lines 255-258):
the config is looked up under the adapter-map key, and a missing config or a
missing priority field counts as zero (`configA?.priority ?? 0`). -/
def StorageManager.priorityOf (m : StorageManager) (name : String) : Int :=
  match mapGet m.adapterConfigs name with
  | some config => config.priority.getD 0
  | none => 0

/-- Stable insertion of `x` into a list sorted by descending `f`: `x` is
placed before the first element whose key is less than or equal to its own, so
earlier elements win ties. -/
def insertDescBy {α : Type} (f : α → Int) (x : α) : List α → List α
  | [] => [x]
  | y :: ys => if f y ≤ f x then x :: y :: ys else y :: insertDescBy f x ys

/-- Stable sort by descending `f`.  `Array.prototype.sort` is stable
(ECMAScript 2019 and later), and the stable descending-order permutation for a
comparator `(a, b) => f(b) - f(a)` is unique, so stable insertion sort computes
the same list the source's `sort` call does. -/
def sortDescBy {α : Type} (f : α → Int) : List α → List α
  | [] => []
  | x :: xs => insertDescBy f x (sortDescBy f xs)

/-- `getSortedAdapters` (storage-manager.ts lines 253-261): the adapter map
entries sorted by `priorityB - priorityA` (higher priority first, stable). -/
def StorageManager.getSortedAdapters (m : StorageManager) : List (String × Adapter) :=
  sortDescBy (fun e => m.priorityOf e.1) m.adapters

/-- JS string truthiness for an optional string: `undefined` and the empty
string are falsy. -/
def strTruthy : Option String → Bool
  | none => false
  | some s => s != ""

/-- `getAdapterWithFallback` (storage-manager.ts lines 122-165).  Step 1 tries
the preferred name (if truthy): on a `getAdapter` throw it rethrows when
fallback is disabled, else falls through.  Step 2 does the same for the default
name when it is truthy and differs from the preferred name.  Step 3, only when
fallback is enabled, scans `getSortedAdapters` for the first ready entry whose
key differs from the verbatim preferred and default names.  `.ok none` models
the `return null` exhaustion result. -/
def StorageManager.getAdapterWithFallback (m : StorageManager)
    (preferredAdapter : Option String) : Except StorageError (Option Adapter) :=
  let step3 : Except StorageError (Option Adapter) :=
    if m.enableFallback then
      .ok ((m.getSortedAdapters.find? (fun e =>
        e.2.ready && (some e.1 != preferredAdapter) && (some e.1 != m.defaultAdapter))).map (·.2))
    else .ok none
  let step2 : Except StorageError (Option Adapter) :=
    if strTruthy m.defaultAdapter &&
        (!(strTruthy preferredAdapter) || (preferredAdapter != m.defaultAdapter)) then
      match m.getAdapter (m.defaultAdapter.getD "") with
      | .ok adapter => if adapter.ready then .ok (some adapter) else step3
      | .error e => if !m.enableFallback then .error e else step3
    else step3
  if strTruthy preferredAdapter then
    match m.getAdapter (preferredAdapter.getD "") with
    | .ok adapter => if adapter.ready then .ok (some adapter) else step2
    | .error e => if !m.enableFallback then .error e else step2
  else step2

/-- Characterization of the fallback scan order: a permutation of the adapter
map in which priorities are non-increasing and, for every priority class, the
relative registration order is preserved (ties broken by registration order). -/
def ScanOrderSpec (m : StorageManager) (l : List (String × Adapter)) : Prop :=
  l.Perm m.adapters ∧
  l.Pairwise (fun a b => m.priorityOf b.1 ≤ m.priorityOf a.1) ∧
  ∀ p : Int, l.filter (fun e => m.priorityOf e.1 == p) =
    m.adapters.filter (fun e => m.priorityOf e.1 == p)

/-- The eighteen event kinds of the `StorageEvent` enum
(events/event-types.ts lines 140-170). -/
inductive StorageEvent where
  | beforeUpload | afterUploadSuccess | uploadFailed
  | beforeDownload | afterDownloadSuccess | downloadFailed
  | beforeDelete | afterDeleteSuccess | deleteFailed
  | beforeGet | afterGetSuccess | getFailed
  | beforeList | afterListSuccess | listFailed
  | beforeExists | afterExistsSuccess | existsFailed
deriving DecidableEq, Repr

/-- Observable behavior of one subscriber at one emission: it can run to
completion, throw synchronously, or return a promise that rejects.  Errors are
opaque `Nat` identifiers. -/
inductive ListenerBehavior where
  | ok
  | throwSync (err : Nat)
  | rejectAsync (err : Nat)
deriving DecidableEq, Repr

/-- The promise produced for one listener inside `emit`
(event-emitter.ts lines 107-114): the call is wrapped in try/catch, so a
synchronous throw is caught, logged via `console.error`, and replaced by a
resolved promise; only a rejected promise returned by the listener survives
into the `Promise.all`. -/
def listenerOutcome : ListenerBehavior → Except Nat Unit
  | .ok => .ok ()
  | .throwSync _ => .ok ()
  | .rejectAsync e => .error e

/-- `Promise.all` over promises that are already settled when assembled (as in
`emit`): rejects with the first rejection in array order, resolves otherwise. -/
def promiseAll : List (Except Nat Unit) → Except Nat Unit
  | [] => .ok ()
  | .ok _ :: rest => promiseAll rest
  | .error e :: _ => .error e

/-- Result of `StorageEventEmitter.emit` (event-emitter.ts lines 95-117) as
observed by its awaiting caller, given the behaviors of the current
subscribers of the emitted kind. -/
def emitBehavior (ls : List ListenerBehavior) : Except Nat Unit :=
  promiseAll (ls.map listenerOutcome)

/-- Behaviors of the subscribers of one operation's three event kinds at the
time of one envelope invocation. -/
structure EmitterBehavior where
  pre : List ListenerBehavior
  success : List ListenerBehavior
  failure : List ListenerBehavior
deriving Repr

/-- One emitted event record as the claims observe it: kind, adapter name,
correlation id, optional error field, and whether a `duration` was attached.
Wall-clock values (timestamp, the duration number) are not modelled. -/
structure EventRecord where
  event : StorageEvent
  adapterName : String
  correlationId : String
  error : Option Nat
  hasDuration : Bool
deriving DecidableEq, Repr

/-- The `uuid` library's `v4` generator, modelled as an injective fresh-name
supply indexed by a counter: distinct draws are distinct strings, and a draw
is never the empty string (the only falsy string). -/
def uuidv4 (n : Nat) : String :=
  String.mk (List.replicate (n + 1) 'u')

/-- The `metadata` record of upload options (`StorageMetadata`); only the
`correlationId` entry is ever read by the envelope. -/
structure StorageMetadata where
  correlationId : Option String
deriving DecidableEq, Repr

/-- `UploadOptions` (types/index.ts lines 98-123); `public`, `contentType` and
`expiresIn` are never read by the envelope and are omitted. -/
structure UploadOptions where
  key : Option String := none
  metadata : Option StorageMetadata := none
deriving DecidableEq, Repr

/-- `DownloadOptions` (types/index.ts lines 125-140).  The TypeScript
interface declares no `metadata` field; as a JavaScript runtime record a
caller can still attach one, and `download` never reads it
(base-storage-adapter.ts line 131 calls `uuidv4()` unconditionally).  The
field is included so that supplying a correlation id is expressible. -/
structure DownloadOptions where
  expiresIn : Option Int := none
  metadata : Option StorageMetadata := none
deriving DecidableEq, Repr

/-- The correlation id a caller supplied through upload options, after JS
truthiness: `options?.metadata?.correlationId as string | undefined || uuidv4()`
treats an empty-string id like an absent one (`||` on a falsy value). -/
def UploadOptions.suppliedCorrelationId (options : Option UploadOptions) : Option String :=
  match (options.bind (·.metadata)).bind (·.correlationId) with
  | some s => if s = "" then none else some s
  | none => none

deriving instance DecidableEq for Except

/-- Everything one envelope invocation produces: the value the caller awaits
(`.ok` payload or `.error`), whether the concrete backend operation ran, the
emitted event records in order, the invocation's correlation id, and the uuid
counter after the invocation. -/
structure OpResult where
  result : Except Nat Nat
  backendInvoked : Bool
  events : List EventRecord
  correlationId : String
  nextCounter : Nat
deriving DecidableEq, Repr

/-- `BaseStorageAdapter.upload` (base-storage-adapter.ts lines 78-125).
The correlation id reuses a truthy supplied one, else mints.  The pre-event is
emitted and awaited; a rejection jumps to the catch block, which emits the
failure event (carrying that error and a duration) and rethrows — unless the
failure emission itself rejects, in which case that rejection is what the
caller sees.  Otherwise `performUpload` runs; on success the success event is
emitted — a rejection there also lands in the catch block — and on backend
failure the failure event is emitted before the backend error is rethrown. -/
def BaseStorageAdapter.upload (adapterName : String) (em : EmitterBehavior)
    (performUpload : Except Nat Nat) (options : Option UploadOptions)
    (uuidCounter : Nat) : OpResult :=
  let supplied := UploadOptions.suppliedCorrelationId options
  let correlationId := supplied.getD (uuidv4 uuidCounter)
  let nextCounter := if supplied.isSome then uuidCounter else uuidCounter + 1
  let preEvent : EventRecord :=
    { event := .beforeUpload, adapterName := adapterName,
      correlationId := correlationId, error := none, hasDuration := false }
  match emitBehavior em.pre with
  | .error preErr =>
      let failEvent : EventRecord :=
        { event := .uploadFailed, adapterName := adapterName,
          correlationId := correlationId, error := some preErr, hasDuration := true }
      { result := .error (match emitBehavior em.failure with
          | .error e2 => e2
          | .ok _ => preErr),
        backendInvoked := false, events := [preEvent, failEvent],
        correlationId := correlationId, nextCounter := nextCounter }
  | .ok _ =>
      match performUpload with
      | .ok response =>
          let successEvent : EventRecord :=
            { event := .afterUploadSuccess, adapterName := adapterName,
              correlationId := correlationId, error := none, hasDuration := true }
          match emitBehavior em.success with
          | .ok _ =>
              { result := .ok response, backendInvoked := true,
                events := [preEvent, successEvent],
                correlationId := correlationId, nextCounter := nextCounter }
          | .error succErr =>
              let failEvent : EventRecord :=
                { event := .uploadFailed, adapterName := adapterName,
                  correlationId := correlationId, error := some succErr, hasDuration := true }
              { result := .error (match emitBehavior em.failure with
                  | .error e2 => e2
                  | .ok _ => succErr),
                backendInvoked := true, events := [preEvent, successEvent, failEvent],
                correlationId := correlationId, nextCounter := nextCounter }
      | .error backendErr =>
          let failEvent : EventRecord :=
            { event := .uploadFailed, adapterName := adapterName,
              correlationId := correlationId, error := some backendErr, hasDuration := true }
          { result := .error (match emitBehavior em.failure with
              | .error e2 => e2
              | .ok _ => backendErr),
            backendInvoked := true, events := [preEvent, failEvent],
            correlationId := correlationId, nextCounter := nextCounter }

/-- `BaseStorageAdapter.download` (base-storage-adapter.ts lines 130-177).
Identical envelope structure to `upload` except that the correlation id is
always freshly minted (line 131): the options — including any attached
metadata — are never consulted for it. -/
def BaseStorageAdapter.download (adapterName : String) (em : EmitterBehavior)
    (performDownload : Except Nat Nat) (options : Option DownloadOptions)
    (uuidCounter : Nat) : OpResult :=
  let _ := options
  let correlationId := uuidv4 uuidCounter
  let nextCounter := uuidCounter + 1
  let preEvent : EventRecord :=
    { event := .beforeDownload, adapterName := adapterName,
      correlationId := correlationId, error := none, hasDuration := false }
  match emitBehavior em.pre with
  | .error preErr =>
      let failEvent : EventRecord :=
        { event := .downloadFailed, adapterName := adapterName,
          correlationId := correlationId, error := some preErr, hasDuration := true }
      { result := .error (match emitBehavior em.failure with
          | .error e2 => e2
          | .ok _ => preErr),
        backendInvoked := false, events := [preEvent, failEvent],
        correlationId := correlationId, nextCounter := nextCounter }
  | .ok _ =>
      match performDownload with
      | .ok response =>
          let successEvent : EventRecord :=
            { event := .afterDownloadSuccess, adapterName := adapterName,
              correlationId := correlationId, error := none, hasDuration := true }
          match emitBehavior em.success with
          | .ok _ =>
              { result := .ok response, backendInvoked := true,
                events := [preEvent, successEvent],
                correlationId := correlationId, nextCounter := nextCounter }
          | .error succErr =>
              let failEvent : EventRecord :=
                { event := .downloadFailed, adapterName := adapterName,
                  correlationId := correlationId, error := some succErr, hasDuration := true }
              { result := .error (match emitBehavior em.failure with
                  | .error e2 => e2
                  | .ok _ => succErr),
                backendInvoked := true, events := [preEvent, successEvent, failEvent],
                correlationId := correlationId, nextCounter := nextCounter }
      | .error backendErr =>
          let failEvent : EventRecord :=
            { event := .downloadFailed, adapterName := adapterName,
              correlationId := correlationId, error := some backendErr, hasDuration := true }
          { result := .error (match emitBehavior em.failure with
              | .error e2 => e2
              | .ok _ => backendErr),
            backendInvoked := true, events := [preEvent, failEvent],
            correlationId := correlationId, nextCounter := nextCounter }

/-- Correlation id of one `delete` invocation (base-storage-adapter.ts line
183): always freshly minted, never read from the options. -/
def BaseStorageAdapter.deleteCorrelationId (uuidCounter : Nat) : String × Nat :=
  (uuidv4 uuidCounter, uuidCounter + 1)

/-- Correlation id of one `get` invocation (base-storage-adapter.ts line 235):
always freshly minted; `get` takes no options at all. -/
def BaseStorageAdapter.getCorrelationId (uuidCounter : Nat) : String × Nat :=
  (uuidv4 uuidCounter, uuidCounter + 1)

/-- Correlation id of one `list` invocation (base-storage-adapter.ts line
284): always freshly minted, never read from the options. -/
def BaseStorageAdapter.listCorrelationId (uuidCounter : Nat) : String × Nat :=
  (uuidv4 uuidCounter, uuidCounter + 1)

/-- Correlation id of one `exists` invocation (base-storage-adapter.ts line
333): always freshly minted; `exists` takes no options at all. -/
def BaseStorageAdapter.existsCorrelationId (uuidCounter : Nat) : String × Nat :=
  (uuidv4 uuidCounter, uuidCounter + 1)

/-- Registration state of `StorageEventEmitter` (event-emitter.ts line 9):
`listeners : Map<string, Set<EventListener>>`.  JS `Set` objects have
identity — the closure returned by `on` keeps a reference to one even after
the map has dropped it — so the model separates a store of `Set` objects
(indexed by allocation order) from the map, which holds store indices.
Individual listener callbacks are identified by `Nat`. -/
structure StorageEventEmitter where
  setStore : List (List Nat)
  listeners : List (String × Nat)
deriving DecidableEq, Repr

/-- The empty emitter. -/
def StorageEventEmitter.empty : StorageEventEmitter :=
  { setStore := [], listeners := [] }

/-- What the closure returned by `on` captures (event-emitter.ts lines 31-36):
the event key, the `Set` object (here: its store index), and the listener. -/
structure UnsubscribeHandle where
  eventKey : String
  setIndex : Nat
  listenerId : Nat
deriving DecidableEq, Repr

/-- `on` (event-emitter.ts lines 17-37): allocates a fresh `Set` for the key
when absent, adds the listener (JS `Set.add` ignores duplicates), and returns
the unsubscribe closure. -/
def StorageEventEmitter.on (em : StorageEventEmitter) (event : String)
    (listenerId : Nat) : StorageEventEmitter × UnsubscribeHandle :=
  match mapGet em.listeners event with
  | some idx =>
      let s := em.setStore.getD idx []
      let s1 := if listenerId ∈ s then s else s ++ [listenerId]
      ({ em with setStore := em.setStore.set idx s1 }, ⟨event, idx, listenerId⟩)
  | none =>
      let idx := em.setStore.length
      ({ setStore := em.setStore ++ [[listenerId]],
         listeners := mapSet em.listeners event idx }, ⟨event, idx, listenerId⟩)

/-- Invoking the closure returned by `on` (event-emitter.ts lines 31-36): it
deletes the listener from the `Set` it captured at subscription time, and if
that set is then empty it deletes the event key from the map — whatever set
the map currently associates with that key. -/
def StorageEventEmitter.runUnsubscribe (em : StorageEventEmitter)
    (h : UnsubscribeHandle) : StorageEventEmitter :=
  let s := (em.setStore.getD h.setIndex []).erase h.listenerId
  let em1 := { em with setStore := em.setStore.set h.setIndex s }
  if s.length = 0 then { em1 with listeners := mapDelete em1.listeners h.eventKey }
  else em1

/-- `off` (event-emitter.ts lines 63-76): removes the listener from the set
the map currently holds for the key, deleting the key when it empties. -/
def StorageEventEmitter.off (em : StorageEventEmitter) (event : String)
    (listenerId : Nat) : StorageEventEmitter :=
  match mapGet em.listeners event with
  | none => em
  | some idx =>
      let s := (em.setStore.getD idx []).erase listenerId
      let em1 := { em with setStore := em.setStore.set idx s }
      if s.length = 0 then { em1 with listeners := mapDelete em1.listeners event }
      else em1

/-- `removeAllListeners` (event-emitter.ts lines 82-88): deletes one key or
clears the whole map; the `Set` objects themselves are untouched. -/
def StorageEventEmitter.removeAllListeners (em : StorageEventEmitter)
    (event : Option String) : StorageEventEmitter :=
  match event with
  | some e => { em with listeners := mapDelete em.listeners e }
  | none => { em with listeners := [] }

/-- The listeners a `publish` of the given kind would reach: the snapshot
`Array.from(listeners)` that `emit` takes (event-emitter.ts line 107). -/
def StorageEventEmitter.currentListeners (em : StorageEventEmitter)
    (event : String) : List Nat :=
  match mapGet em.listeners event with
  | some idx => em.setStore.getD idx []
  | none => []

/-- Whether a try/catch around the given computation would enter its catch
block: true exactly on `.error`. -/
def exceptFails {ε α : Type} : Except ε α → Bool
  | .error _ => true
  | .ok _ => false

/-- Stable insertion keeps the inserted element together with a permutation of
the old list. -/
theorem insertDescBy_perm {α : Type} (f : α → Int) (x : α) (l : List α) :
    (insertDescBy f x l).Perm (x :: l) := by
  induction l with
  | nil => simp [insertDescBy]
  | cons y ys ih =>
    by_cases h : f y ≤ f x
    · simp [insertDescBy, h]
    · simp only [insertDescBy, if_neg h]
      exact (ih.cons y).trans (List.Perm.swap x y ys)

/-- The stable descending sort permutes its input. -/
theorem sortDescBy_perm {α : Type} (f : α → Int) (l : List α) :
    (sortDescBy f l).Perm l := by
  induction l with
  | nil => simp [sortDescBy]
  | cons x xs ih => exact (insertDescBy_perm f x _).trans (ih.cons x)

/-- Membership in a stable insertion. -/
theorem mem_insertDescBy {α : Type} (f : α → Int) (x : α) (l : List α) (a : α) :
    a ∈ insertDescBy f x l ↔ a = x ∨ a ∈ l := by
  rw [(insertDescBy_perm f x l).mem_iff, List.mem_cons]

/-- Stable insertion preserves the descending-keys invariant. -/
theorem pairwise_insertDescBy {α : Type} (f : α → Int) (x : α) (l : List α)
    (h : l.Pairwise (fun a b => f b ≤ f a)) :
    (insertDescBy f x l).Pairwise (fun a b => f b ≤ f a) := by
  induction l with
  | nil => simp [insertDescBy]
  | cons y ys ih =>
    rcases List.pairwise_cons.mp h with ⟨hy, hys⟩
    by_cases hle : f y ≤ f x
    · simp only [insertDescBy, if_pos hle]
      refine List.pairwise_cons.mpr ⟨?_, h⟩
      intro b hb
      rcases List.mem_cons.mp hb with rfl | hb
      · exact hle
      · exact le_trans (hy b hb) hle
    · simp only [insertDescBy, if_neg hle]
      refine List.pairwise_cons.mpr ⟨?_, ih hys⟩
      intro b hb
      rcases (mem_insertDescBy f x ys b).mp hb with rfl | hb
      · exact le_of_lt (lt_of_not_le hle)
      · exact hy b hb

/-- The stable descending sort produces a list with non-increasing keys. -/
theorem pairwise_sortDescBy {α : Type} (f : α → Int) (l : List α) :
    (sortDescBy f l).Pairwise (fun a b => f b ≤ f a) := by
  induction l with
  | nil => simp [sortDescBy]
  | cons x xs ih => exact pairwise_insertDescBy f x _ ih

/-- Stable insertion restricted to one key class either prepends the new
element (its own class) or leaves the class subsequence unchanged. -/
theorem filter_insertDescBy {α : Type} (f : α → Int) (x : α) (l : List α) (p : Int) :
    (insertDescBy f x l).filter (fun a => f a == p) =
      (if f x == p then [x] else []) ++ l.filter (fun a => f a == p) := by
  induction l with
  | nil => simp [insertDescBy, List.filter_cons]
  | cons y ys ih =>
    by_cases hle : f y ≤ f x
    · simp only [insertDescBy, if_pos hle, List.filter_cons]
      split <;> split <;> simp_all
    · simp only [insertDescBy, if_neg hle, List.filter_cons, ih]
      by_cases hxp : (f x == p) = true
      · have hyp : (f y == p) = false := by
          have hx : f x = p := by exact_mod_cast beq_iff_eq.mp hxp
          have : f y ≠ p := by
            intro hy
            exact hle (le_of_eq (hy.trans hx.symm))
          simpa [beq_iff_eq] using this
        simp [hxp, hyp]
      · simp at hxp
        simp [hxp]

/-- Stability of the sort: within each priority class, the sorted list keeps
exactly the original subsequence — ties are broken by original position. -/
theorem filter_sortDescBy {α : Type} (f : α → Int) (l : List α) (p : Int) :
    (sortDescBy f l).filter (fun a => f a == p) = l.filter (fun a => f a == p) := by
  induction l with
  | nil => rfl
  | cons x xs ih =>
    rw [sortDescBy, filter_insertDescBy, ih, List.filter_cons]
    split <;> simp

/-- Distinct counter values yield distinct minted uuids. -/
theorem uuidv4_injective : Function.Injective uuidv4 := by
  intro n m h
  have h2 := congrArg String.length h
  simpa [uuidv4, String.length] using h2

/-- Contrapositive form of `uuidv4_injective` used for freshness. -/
theorem uuidv4_ne_of_ne (n m : Nat) (h : n ≠ m) : uuidv4 n ≠ uuidv4 m :=
  fun he => h (uuidv4_injective he)

/-- Claim C1.  The claim states that a pre-event subscriber's error always
propagates to the caller and prevents the backend operation, whether the
subscriber throws synchronously or returns a rejected asynchronous result.
The code contradicts the synchronous half: `emit` wraps the synchronous call
in try/catch (event-emitter.ts lines 108-113), so a synchronously thrown veto
is caught and logged, the backend operation runs and its response is returned;
only a rejected asynchronous result aborts the operation.  This theorem
evaluates `upload` at both behaviors to exhibit the divergence. -/
theorem upload_preEvent_syncThrow_swallowed :
    (BaseStorageAdapter.upload "local" ⟨[.throwSync 7], [], []⟩ (.ok 42) none 0).backendInvoked
      = true ∧
    (BaseStorageAdapter.upload "local" ⟨[.throwSync 7], [], []⟩ (.ok 42) none 0).result
      = .ok 42 ∧
    (BaseStorageAdapter.upload "local" ⟨[.rejectAsync 7], [], []⟩ (.ok 42) none 0).backendInvoked
      = false ∧
    (BaseStorageAdapter.upload "local" ⟨[.rejectAsync 7], [], []⟩ (.ok 42) none 0).result
      = .error 7 := by
  decide

/-- Claim C2, counterexample.  The claim states that an error raised by a
success-event (resp. failure-event) subscriber never masks the Outcome (resp.
the backend's original error) seen by the caller.  In the code a success
subscriber whose asynchronous callback rejects lands in the catch block, whose
rethrow hands the caller the subscriber's error instead of the successful
response; likewise a rejecting failure subscriber replaces the backend's
error.  Evaluated here at concrete inputs. -/
theorem successListener_rejection_masks_outcome :
    (BaseStorageAdapter.upload "local" ⟨[], [.rejectAsync 9], []⟩ (.ok 3) none 0).result
      = .error 9 ∧
    (BaseStorageAdapter.upload "local" ⟨[], [.rejectAsync 9], []⟩ (.ok 3) none 0).result
      ≠ .ok 3 ∧
    (BaseStorageAdapter.upload "local" ⟨[], [], [.rejectAsync 8]⟩ (.error 5) none 0).result
      = .error 8 := by
  decide

/-- Claim C2, amended.  Subscribers that throw synchronously are caught and
logged inside `emit` and never change what the caller observes — when no
subscriber's asynchronous callback rejects, the caller gets exactly the
backend's outcome.  But a success-event subscriber whose asynchronous callback
rejects replaces a successful Outcome with its own error, and a failure-event
subscriber whose asynchronous callback rejects replaces the original error.
(`emitBehavior ls = .ok ()` says precisely that no subscriber in `ls` rejects
asynchronously, while permitting arbitrary synchronous throws.) -/
theorem listener_masking_amended :
    (∀ (a : String) (em : EmitterBehavior) (b : Except Nat Nat)
        (opts : Option UploadOptions) (c : Nat),
      emitBehavior em.pre = .ok () → emitBehavior em.success = .ok () →
      emitBehavior em.failure = .ok () →
      (BaseStorageAdapter.upload a em b opts c).result = b) ∧
    (∀ (a : String) (em : EmitterBehavior) (r : Nat)
        (opts : Option UploadOptions) (c : Nat) (e : Nat),
      emitBehavior em.pre = .ok () → emitBehavior em.success = .error e →
      emitBehavior em.failure = .ok () →
      (BaseStorageAdapter.upload a em (.ok r) opts c).result = .error e) ∧
    (∀ (a : String) (em : EmitterBehavior) (eb : Nat)
        (opts : Option UploadOptions) (c : Nat) (e2 : Nat),
      emitBehavior em.pre = .ok () → emitBehavior em.failure = .error e2 →
      (BaseStorageAdapter.upload a em (.error eb) opts c).result = .error e2) := by
  refine ⟨?_, ?_, ?_⟩
  · intro a em b opts c hpre hsucc hfail
    unfold BaseStorageAdapter.upload
    rcases b with eb | r <;> simp [hpre, hsucc, hfail]
  · intro a em r opts c e hpre hsucc hfail
    unfold BaseStorageAdapter.upload
    simp [hpre, hsucc, hfail]
  · intro a em eb opts c e2 hpre hfail
    unfold BaseStorageAdapter.upload
    simp [hpre, hfail]

/-- Witness for `listener_masking_amended`: with subscribers that throw only
synchronously on all three kinds, a successful backend response is returned
unchanged. -/
theorem listener_masking_amended_witness :
    (BaseStorageAdapter.upload "local" ⟨[.throwSync 3], [.throwSync 4], [.throwSync 5]⟩
      (.ok 9) none 0).result = .ok 9 :=
  listener_masking_amended.1 "local" ⟨[.throwSync 3], [.throwSync 4], [.throwSync 5]⟩
    (.ok 9) none 0 (by decide) (by decide) (by decide)

/-- Claim C3, counterexample.  The claim states that every one of the six
wrapped operations carries a caller-supplied correlation id (from the
operation's options metadata) in its events.  `download` does not: line 131
mints a fresh uuid unconditionally, so a supplied id never reaches the
events.  Evaluated here: with metadata correlation id `"abc"` every emitted
download event carries the minted id instead. -/
theorem download_ignores_supplied_correlationId :
    (BaseStorageAdapter.download "local" ⟨[], [], []⟩ (.ok 1)
        (some { expiresIn := none, metadata := some ⟨some "abc"⟩ }) 5).correlationId
      ≠ "abc" ∧
    ((BaseStorageAdapter.download "local" ⟨[], [], []⟩ (.ok 1)
        (some { expiresIn := none, metadata := some ⟨some "abc"⟩ }) 5).events.map
      (fun ev => ev.correlationId))
      = [uuidv4 5, uuidv4 5] ∧
    uuidv4 5 ≠ "abc" := by
  decide

/-- Claim C3, amended.  Only `upload` reuses a caller-supplied correlation id
(and only when it is a truthy, i.e. non-empty, string): that id is then the
one carried by all of the invocation's events and the counter is not
advanced.  The other five operations always mint a fresh id: `download` (and,
by the same single line of code, `delete`, `get`, `list` and `exists`) uses
`uuidv4()` unconditionally and advances the counter. -/
theorem correlationId_reuse_amended :
    (∀ (a : String) (em : EmitterBehavior) (b : Except Nat Nat)
        (opts : Option UploadOptions) (c : Nat) (s : String),
      UploadOptions.suppliedCorrelationId opts = some s →
      (BaseStorageAdapter.upload a em b opts c).correlationId = s ∧
      (BaseStorageAdapter.upload a em b opts c).nextCounter = c ∧
      ∀ ev ∈ (BaseStorageAdapter.upload a em b opts c).events, ev.correlationId = s) ∧
    (∀ (a : String) (em : EmitterBehavior) (b : Except Nat Nat)
        (opts : Option DownloadOptions) (c : Nat),
      (BaseStorageAdapter.download a em b opts c).correlationId = uuidv4 c ∧
      (BaseStorageAdapter.download a em b opts c).nextCounter = c + 1) ∧
    (∀ c : Nat, BaseStorageAdapter.deleteCorrelationId c = (uuidv4 c, c + 1)) ∧
    (∀ c : Nat, BaseStorageAdapter.getCorrelationId c = (uuidv4 c, c + 1)) ∧
    (∀ c : Nat, BaseStorageAdapter.listCorrelationId c = (uuidv4 c, c + 1)) ∧
    (∀ c : Nat, BaseStorageAdapter.existsCorrelationId c = (uuidv4 c, c + 1)) := by
  refine ⟨?_, ?_, fun c => rfl, fun c => rfl, fun c => rfl, fun c => rfl⟩
  · intro a em b opts c s hs
    refine ⟨?_, ?_, ?_⟩
    · unfold BaseStorageAdapter.upload
      rcases hpre : emitBehavior em.pre with e1 | u1 <;>
        rcases b with eb | r <;>
        rcases hsucc : emitBehavior em.success with es | us <;>
        simp [hpre, hsucc, hs]
    · unfold BaseStorageAdapter.upload
      rcases hpre : emitBehavior em.pre with e1 | u1 <;>
        rcases b with eb | r <;>
        rcases hsucc : emitBehavior em.success with es | us <;>
        simp [hpre, hsucc, hs]
    · intro ev hev
      unfold BaseStorageAdapter.upload at hev
      rcases hpre : emitBehavior em.pre with e1 | u1 <;>
        rcases b with eb | r <;>
        rcases hsucc : emitBehavior em.success with es | us <;>
        simp [hpre, hsucc, hs] at hev <;>
        rcases hev with rfl | rfl | rfl <;> rfl
  · intro a em b opts c
    unfold BaseStorageAdapter.download
    rcases hpre : emitBehavior em.pre with e1 | u1 <;>
      rcases b with eb | r <;>
      rcases hsucc : emitBehavior em.success with es | us <;>
      simp [hpre, hsucc]

/-- Witness for `correlationId_reuse_amended`: an upload invoked with
metadata correlation id `"abc"` carries exactly that id. -/
theorem correlationId_reuse_amended_witness :
    (BaseStorageAdapter.upload "local" ⟨[], [], []⟩ (.ok 1)
      (some { key := none, metadata := some ⟨some "abc"⟩ }) 0).correlationId = "abc" :=
  (correlationId_reuse_amended.1 "local" ⟨[], [], []⟩ (.ok 1)
    (some { key := none, metadata := some ⟨some "abc"⟩ }) 0 "abc" (by decide)).1

/-- Claim C4.  Within one invocation of a wrapped operation every emitted
event carries the invocation's single correlation id (shown for `upload` and
`download`, the two fully modelled envelopes), and two sequential invocations
that do not supply an explicit id — the second starting from the first's uuid
counter — carry distinct correlation ids. -/
theorem correlationId_stable_and_fresh :
    (∀ (a : String) (em : EmitterBehavior) (b : Except Nat Nat)
        (opts : Option UploadOptions) (c : Nat),
      ∀ ev ∈ (BaseStorageAdapter.upload a em b opts c).events,
        ev.correlationId = (BaseStorageAdapter.upload a em b opts c).correlationId) ∧
    (∀ (a : String) (em : EmitterBehavior) (b : Except Nat Nat)
        (opts : Option DownloadOptions) (c : Nat),
      ∀ ev ∈ (BaseStorageAdapter.download a em b opts c).events,
        ev.correlationId = (BaseStorageAdapter.download a em b opts c).correlationId) ∧
    (∀ (a1 a2 : String) (em1 em2 : EmitterBehavior) (b1 b2 : Except Nat Nat)
        (opts1 opts2 : Option UploadOptions) (c : Nat),
      UploadOptions.suppliedCorrelationId opts1 = none →
      UploadOptions.suppliedCorrelationId opts2 = none →
      (BaseStorageAdapter.upload a2 em2 b2 opts2
          (BaseStorageAdapter.upload a1 em1 b1 opts1 c).nextCounter).correlationId ≠
        (BaseStorageAdapter.upload a1 em1 b1 opts1 c).correlationId) := by
  refine ⟨?_, ?_, ?_⟩
  · intro a em b opts c ev hev
    unfold BaseStorageAdapter.upload at hev ⊢
    rcases hpre : emitBehavior em.pre with e1 | u1 <;>
      rcases b with eb | r <;>
      rcases hsucc : emitBehavior em.success with es | us <;>
      simp [hpre, hsucc] at hev ⊢ <;>
      rcases hev with rfl | rfl | rfl <;> rfl
  · intro a em b opts c ev hev
    unfold BaseStorageAdapter.download at hev ⊢
    rcases hpre : emitBehavior em.pre with e1 | u1 <;>
      rcases b with eb | r <;>
      rcases hsucc : emitBehavior em.success with es | us <;>
      simp [hpre, hsucc] at hev ⊢ <;>
      rcases hev with rfl | rfl | rfl <;> rfl
  · intro a1 a2 em1 em2 b1 b2 opts1 opts2 c h1 h2
    unfold BaseStorageAdapter.upload
    simp only [h1, h2, Option.getD_none, Option.isSome_none]
    rcases hpre : emitBehavior em1.pre with e1 | u1 <;>
      rcases b1 with eb | r <;>
      rcases hsucc : emitBehavior em1.success with es | us <;>
      rcases hpre2 : emitBehavior em2.pre with f1 | v1 <;>
      rcases b2 with fb | s <;>
      rcases hsucc2 : emitBehavior em2.success with fs | vs <;>
      simp [hpre, hsucc, hpre2, hsucc2] <;>
      exact uuidv4_ne_of_ne _ _ (by omega)

/-- Witness for `correlationId_stable_and_fresh`: two sequential uploads with
no supplied id mint different correlation ids. -/
theorem correlationId_stable_and_fresh_witness :
    (BaseStorageAdapter.upload "local" ⟨[], [], []⟩ (.ok 1) none
        (BaseStorageAdapter.upload "local" ⟨[], [], []⟩ (.ok 1) none 0).nextCounter).correlationId ≠
      (BaseStorageAdapter.upload "local" ⟨[], [], []⟩ (.ok 1) none 0).correlationId :=
  correlationId_stable_and_fresh.2.2 "local" "local" ⟨[], [], []⟩ ⟨[], [], []⟩
    (.ok 1) (.ok 1) none none 0 (by decide) (by decide)

/-- Claim C10.  When a pre-event subscriber's rejected result aborts a wrapped
operation (so the backend is never invoked), the envelope still emits the
operation's failure event — carrying the subscriber's error as the event's
error field together with a duration — before re-raising that same error to
the caller (assuming the failure emission itself does not reject). -/
theorem preEvent_veto_emits_failure_event (a : String) (em : EmitterBehavior)
    (b : Except Nat Nat) (opts : Option UploadOptions) (c : Nat) (e : Nat)
    (hpre : emitBehavior em.pre = .error e)
    (hfail : emitBehavior em.failure = .ok ()) :
    (BaseStorageAdapter.upload a em b opts c).backendInvoked = false ∧
    (BaseStorageAdapter.upload a em b opts c).result = .error e ∧
    (BaseStorageAdapter.upload a em b opts c).events =
      [{ event := .beforeUpload, adapterName := a,
         correlationId := (BaseStorageAdapter.upload a em b opts c).correlationId,
         error := none, hasDuration := false },
       { event := .uploadFailed, adapterName := a,
         correlationId := (BaseStorageAdapter.upload a em b opts c).correlationId,
         error := some e, hasDuration := true }] := by
  unfold BaseStorageAdapter.upload
  simp [hpre, hfail]

/-- Witness for `preEvent_veto_emits_failure_event`: a rejecting pre-event
subscriber aborts the upload and the subscriber's error is re-raised. -/
theorem preEvent_veto_emits_failure_event_witness :
    (BaseStorageAdapter.upload "local" ⟨[.rejectAsync 7], [], []⟩ (.ok 42) none 0).backendInvoked
      = false ∧
    (BaseStorageAdapter.upload "local" ⟨[.rejectAsync 7], [], []⟩ (.ok 42) none 0).result
      = .error 7 :=
  ⟨(preEvent_veto_emits_failure_event "local" ⟨[.rejectAsync 7], [], []⟩ (.ok 42) none 0 7
      (by decide) (by decide)).1,
   (preEvent_veto_emits_failure_event "local" ⟨[.rejectAsync 7], [], []⟩ (.ok 42) none 0 7
      (by decide) (by decide)).2.1⟩

/-- Claim C5.  When fallback is enabled and both the preferred and default
steps fail, `getAdapterWithFallback` returns the first ready entry — skipping
the preferred and default names — of `getSortedAdapters`, and that list is a
permutation of the registered adapters with non-increasing configured
priorities (missing priority counting as zero inside `priorityOf`) in which
ties are broken by registration order (`ScanOrderSpec`).  The witness
instantiates the tie-break example: two ready adapters of priority 2
registered as `B` then `A`, and the scan yields `B`'s instance. -/
theorem fallback_scan_priority_order (m : StorageManager) (pref : String) (e : StorageError)
    (hfb : m.enableFallback = true)
    (hp : pref ≠ "")
    (hpre : m.getAdapter pref = .error e)
    (hdef : match m.defaultAdapter with
      | none => True
      | some d => d ≠ "" → pref ≠ d → exceptFails (m.getAdapter d) = true) :
    m.getAdapterWithFallback (some pref) =
      .ok ((m.getSortedAdapters.find? (fun en =>
        en.2.ready && (some en.1 != some pref) && (some en.1 != m.defaultAdapter))).map (·.2)) ∧
    ScanOrderSpec m m.getSortedAdapters := by
  refine ⟨?_, sortDescBy_perm _ _, pairwise_sortDescBy _ _, fun p => filter_sortDescBy _ _ p⟩
  have hp' : (pref != "") = true := bne_iff_ne.mpr hp
  cases hda : m.defaultAdapter with
  | none =>
      simp [StorageManager.getAdapterWithFallback, strTruthy, hp', hpre, hfb, hda]
  | some d =>
      rw [hda] at hdef
      by_cases hd0 : d = ""
      · subst hd0
        simp [StorageManager.getAdapterWithFallback, strTruthy, hp', hpre, hfb, hda]
      · by_cases hpd : pref = d
        · subst hpd
          simp [StorageManager.getAdapterWithFallback, strTruthy, hp', hpre, hfb, hda]
        · have hf := hdef hd0 hpd
          cases he2 : m.getAdapter d with
          | ok a2 => rw [he2] at hf; exact absurd hf (by simp [exceptFails])
          | error e2 =>
              simp [StorageManager.getAdapterWithFallback, strTruthy, hp', hpre, hfb, hda,
                he2, hd0, hpd]

/-- Witness for `fallback_scan_priority_order`: preferred adapter `p` is
registered but not ready, no default is set, fallback is enabled, and the two
remaining ready adapters both have priority 2 and were registered as `B` then
`A`; the scan returns `B`'s instance (id 2). -/
theorem fallback_scan_priority_order_witness :
    ((((StorageManager.create (some
        { adapters := [{ name := "b", config := 0, enabled := some false, priority := some 2 },
                       { name := "a", config := 0, enabled := some false, priority := some 2 }],
          defaultAdapter := none, enableFallback := some true })).registerAdapter
        "p" ⟨1, false⟩).registerAdapter "B" ⟨2, true⟩).registerAdapter "A"
        ⟨3, true⟩).getAdapterWithFallback (some "p") = .ok (some ⟨2, true⟩) :=
  ((fallback_scan_priority_order _ "p" (.notReady "p") (by decide) (by decide) (by decide)
    (by trivial)).1).trans (by decide)

/-- Claim C6.  With fallback disabled, a failing preferred step (adapter not
registered or not ready) makes `getAdapterWithFallback` rethrow that exact
configuration error immediately — it never reaches the default step or the
scan and never returns another adapter; and likewise a failing default step
(here exercised with no preferred name) rethrows immediately. -/
theorem fallback_disabled_raises_immediately :
    (∀ (m : StorageManager) (pref : String) (e : StorageError),
      m.enableFallback = false → pref ≠ "" → m.getAdapter pref = .error e →
      m.getAdapterWithFallback (some pref) = .error e) ∧
    (∀ (m : StorageManager) (d : String) (e : StorageError),
      m.enableFallback = false → m.defaultAdapter = some d → d ≠ "" →
      m.getAdapter d = .error e →
      m.getAdapterWithFallback none = .error e) := by
  constructor
  · intro m pref e hfb hp hpre
    have hp' : (pref != "") = true := bne_iff_ne.mpr hp
    simp [StorageManager.getAdapterWithFallback, strTruthy, hp', hpre, hfb]
  · intro m d e hfb hda hd0 hde
    have hd' : (d != "") = true := bne_iff_ne.mpr hd0
    simp [StorageManager.getAdapterWithFallback, strTruthy, hda, hd', hde, hfb]

/-- Witness for `fallback_disabled_raises_immediately`: an empty registry with
fallback disabled rethrows the not-registered error for the preferred name. -/
theorem fallback_disabled_raises_immediately_witness :
    (StorageManager.create none).getAdapterWithFallback (some "x")
      = .error (.notRegistered "x") :=
  fallback_disabled_raises_immediately.1 (StorageManager.create none) "x"
    (.notRegistered "x") (by decide) (by decide) (by decide)

/-- Claim C7.  `getAdapter` raises the distinguished not-registered
configuration error when no instance is stored under the (lowercased) name,
raises the distinguished not-ready error when the stored instance's readiness
check returns false, and otherwise returns exactly the stored instance. -/
theorem getAdapter_resolution_contract (m : StorageManager) (name : String) :
    (mapGet m.adapters (jsToLower name) = none →
      m.getAdapter name = .error (.notRegistered name)) ∧
    (∀ a : Adapter, mapGet m.adapters (jsToLower name) = some a → a.ready = false →
      m.getAdapter name = .error (.notReady name)) ∧
    (∀ a : Adapter, mapGet m.adapters (jsToLower name) = some a → a.ready = true →
      m.getAdapter name = .ok a) := by
  refine ⟨?_, ?_, ?_⟩
  · intro h
    simp [StorageManager.getAdapter, h]
  · intro a h hr
    simp [StorageManager.getAdapter, h, hr]
  · intro a h hr
    simp [StorageManager.getAdapter, h, hr]

/-- Witness for `getAdapter_resolution_contract`: the instance registered as
`Dog` is returned unchanged when resolved as `DOG`. -/
theorem getAdapter_resolution_contract_witness :
    ((StorageManager.create none).registerAdapter "Dog" ⟨5, true⟩).getAdapter "DOG"
      = .ok ⟨5, true⟩ :=
  (getAdapter_resolution_contract ((StorageManager.create none).registerAdapter "Dog" ⟨5, true⟩)
    "DOG").2.2 ⟨5, true⟩ (by decide) rfl

/-- Claim C8.  The claim states adapter names are a case-insensitive key for
every registry operation, including matching a construction-time configuration
record against a later `registerFactory` call.  The constructor stores config
records under the verbatim `name` field while `registerFactory` looks them up
under the lowercased call name, so a record named `S3` never matches: the
factory is not invoked and nothing is cached (first two conjuncts), whereas
the identical scenario with the config named `s3` initializes the adapter and
resolves under any casing (last two conjuncts). -/
theorem config_name_casing_mismatch :
    ((StorageManager.create (some
        { adapters := [{ name := "S3", config := 7, enabled := some true, priority := none }],
          defaultAdapter := none, enableFallback := none })).registerFactory "S3"
        (fun c => .ok ⟨c, true⟩)).adapters = [] ∧
    ((StorageManager.create (some
        { adapters := [{ name := "S3", config := 7, enabled := some true, priority := none }],
          defaultAdapter := none, enableFallback := none })).registerFactory "S3"
        (fun c => .ok ⟨c, true⟩)).getAdapter "S3" = .error (.notRegistered "S3") ∧
    ((StorageManager.create (some
        { adapters := [{ name := "s3", config := 7, enabled := some true, priority := none }],
          defaultAdapter := none, enableFallback := none })).registerFactory "S3"
        (fun c => .ok ⟨c, true⟩)).adapters = [("s3", ⟨7, true⟩)] ∧
    ((StorageManager.create (some
        { adapters := [{ name := "s3", config := 7, enabled := some true, priority := none }],
          defaultAdapter := none, enableFallback := none })).registerFactory "S3"
        (fun c => .ok ⟨c, true⟩)).getAdapter "S3" = .ok ⟨7, true⟩ := by
  decide

/-- Claim C9.  The claim states an unsubscribe handle removes exactly its own
registration and leaves every other currently registered listener registered,
including listeners registered for the same kind after a `removeAllListeners`.
The code violates this: the handle captures the `Set` object from subscription
time, and when that stale set empties it deletes the event key from the map
even though the map now points at a fresh set.  Evaluated here: listener 1
subscribes to `beforeUpload`, all `beforeUpload` listeners are removed,
listener 2 subscribes to the same kind (and is reachable — second conjunct);
then invoking listener 1's stale handle deregisters listener 2 (first
conjunct). -/
theorem stale_unsubscribe_handle_removes_other_listener :
    ((((StorageEventEmitter.empty.on "beforeUpload" 1).1.removeAllListeners
        (some "beforeUpload")).on "beforeUpload" 2).1.runUnsubscribe
        (StorageEventEmitter.empty.on "beforeUpload" 1).2).currentListeners "beforeUpload"
      = [] ∧
    ((((StorageEventEmitter.empty.on "beforeUpload" 1).1.removeAllListeners
        (some "beforeUpload")).on "beforeUpload" 2).1).currentListeners "beforeUpload"
      = [2] := by
  decide
